import Mathlib

/-!
# Verification of the MCPower dataset-registry / knowledge-store core

Shallow embedding of the TypeScript core of the repository:
`src/config/datasets.ts` (DatasetRegistry), `src/store/knowledgeStore.ts`
(KnowledgeStore and KnowledgeStoreCache), `src/tools/search.ts`
(handleSearch), `src/tools/listDatasets.ts` (handleListDatasets), and
the type/schema modules `src/types/dataset.ts`, `src/types/searchQuery.ts`,
`src/types/searchResult.ts`.

Filesystem reads, subprocess execution and wall-clock time are external
effects; they enter the embedding as explicit parameters describing their
observed outcomes (manifest read outcomes, bridge call outcomes, durations).
Everything the TypeScript code itself computes is translated directly.
-/

deriving instance DecidableEq for Except

namespace MCPower

/-! ## Data model (`src/types/dataset.ts`, `src/types/searchResult.ts`) -/

/-- `Dataset` from `src/types/dataset.ts` (the shape produced by
`DatasetManifestSchema`): id, name, description, index path, metadata path,
defaultTopK. -/
structure Dataset where
  id : String
  name : String
  description : String
  index : String
  metadata : String
  defaultTopK : Nat
  deriving Repr, DecidableEq

/-- `DatasetStatus` from `src/types/dataset.ts`. -/
inductive DatasetStatus where
  | unloaded
  | validating
  | invalid
  | loading
  | ready
  | error
  deriving Repr, DecidableEq

/-- `DatasetWithStatus` from `src/types/dataset.ts`: a dataset plus runtime
status and optional error message. -/
structure DatasetWithStatus extends Dataset where
  status : DatasetStatus
  error : Option String := none
  deriving Repr, DecidableEq

/-- `DatasetError` from `src/types/dataset.ts`: one recorded load failure.
The timestamp (`new Date()` in the source) is modelled as a `Nat`. -/
structure DatasetError where
  manifestPath : String
  error : String
  timestamp : Nat
  deriving Repr, DecidableEq

/-- `SearchResult` from `src/types/searchResult.ts`. The score (a JS float
in 0..1) is modelled as a rational. -/
structure SearchResult where
  score : Rat
  title : String
  path : String
  snippet : String
  deriving Repr, DecidableEq

/-- `PythonBridgeResponse` from `src/types/searchResult.ts`. -/
structure PythonBridgeResponse where
  results : List SearchResult
  duration_ms : Nat
  dataset_size : Nat
  deriving Repr, DecidableEq

/-- `PythonBridgeRequest`: the request object actually built by
`KnowledgeStore.search` and consumed by `PythonBridge.search`
(command, index path, optional metadata path, query, topK). -/
structure PythonBridgeRequest where
  command : String
  indexPath : String
  metadataPath : Option String := none
  query : Option String := none
  topK : Option Nat := none
  deriving Repr, DecidableEq

/-! ## JS `Map` model

The registry and the store cache use a JS `Map` keyed by strings.  A JS
`Map` is insertion ordered: `set` overwrites the value in place when the
key is present and appends otherwise.  We model it as an association
list with exactly those semantics. -/

/-- JS `Map.set`: overwrite in place when present, append otherwise. -/
def mapSet {α : Type} (m : List (String × α)) (k : String) (v : α) :
    List (String × α) :=
  if m.any (fun p => p.1 == k) then
    m.map (fun p => if p.1 == k then (k, v) else p)
  else
    m ++ [(k, v)]

/-- JS `Map.get`: first (only) binding for the key, if any. -/
def mapGet {α : Type} (m : List (String × α)) (k : String) : Option α :=
  (m.find? (fun p => p.1 == k)).map (·.2)

/-- JS `Map.has`. -/
def mapHas {α : Type} (m : List (String × α)) (k : String) : Bool :=
  (mapGet m k).isSome

/-- JS `Map.values` (insertion order). -/
def mapValues {α : Type} (m : List (String × α)) : List α :=
  m.map (·.2)

/-! ## Dataset registry (`src/config/datasets.ts`) -/

/-- `MAX_MANIFEST_SIZE` constant from `src/config/datasets.ts`. -/
def MAX_MANIFEST_SIZE : Nat := 10 * 1024

/-- The outcome of reading, parsing, schema-validating and path-checking one
manifest file, as observed by `DatasetRegistry.loadManifest`.  These are
the mutually exclusive ways the `try` block up to (and excluding) the FAISS
validation step can go; the filesystem itself is external, so the outcome is
a parameter of the embedding.  In the `ok` case the carried `Dataset` is the
parsed manifest with `index`/`metadata` already resolved (resolution itself
is pure path arithmetic on external paths). -/
inductive ManifestOutcome where
  | sizeExceeded (size : Nat)
  | parseFailed (msg : String)
  | schemaFailed (msg : String)
  | indexMissing (resolvedIndex : String)
  | metadataMissing (resolvedMetadata : String)
  | ok (d : Dataset)
  deriving Repr, DecidableEq

/-- What `pythonBridge.validateIndex` came back with for this dataset:
a non-error status, a returned `status: "error"` (which `loadManifest`
turns into a thrown error), or a thrown error. `validateIndex` itself never
rejects (it catches internally), but the model also allows `threw` so that
the claim about validator failures covers every conceivable failure mode. -/
inductive ValidatorOutcome where
  | ok
  | statusError (msg : Option String)
  | threw (msg : String)
  deriving Repr, DecidableEq

/-- The error message `loadManifest` records for each failing outcome,
matching the strings constructed in `src/config/datasets.ts` (for parse and
schema failures the message originates in `JSON.parse` / Zod and is carried
through unchanged). -/
def manifestErrorMessage : ManifestOutcome → Option String
  | .sizeExceeded size =>
      some ("Manifest file exceeds maximum size (" ++ toString size ++ " > "
        ++ toString MAX_MANIFEST_SIZE ++ " bytes). "
        ++ "This limit prevents DoS attacks from large manifest files.")
  | .parseFailed msg => some msg
  | .schemaFailed msg => some msg
  | .indexMissing p => some ("Index directory not found: " ++ p)
  | .metadataMissing p => some ("Metadata file not found: " ++ p)
  | .ok _ => none

/-- The in-memory state of a `DatasetRegistry`: the `datasets` map and the
`loadErrors` array. -/
structure RegistryState where
  datasets : List (String × DatasetWithStatus)
  loadErrors : List DatasetError
  deriving Repr, DecidableEq

/-- A freshly constructed registry (`new DatasetRegistry(path)`). -/
def RegistryState.empty : RegistryState := ⟨[], []⟩

/-- `DatasetRegistry.loadManifest`: on any failure before registration,
append a `DatasetError`; on success, register the dataset with status
`ready`.  The validator outcome `v` is received but — exactly as in the
source, where the inner `try/catch` swallows both a thrown error and a
returned `status === "error"` (rethrown inside the `try`) and merely logs a
warning — it has no effect on the state. -/
def RegistryState.loadManifest (st : RegistryState) (manifestPath : String)
    (outcome : ManifestOutcome) (v : ValidatorOutcome) (now : Nat) :
    RegistryState :=
  match outcome with
  | .ok d =>
      let _ := v
      { st with datasets := mapSet st.datasets d.id { toDataset := d, status := .ready } }
  | o =>
      { st with loadErrors :=
          st.loadErrors ++ [⟨manifestPath, (manifestErrorMessage o).getD "", now⟩] }

/-- One directory entry found under the datasets root: its name, the outcome
of processing `<root>/<name>/manifest.json`, and the validator outcome for
it (used only when the manifest outcome is `ok`). -/
structure DirEntry where
  name : String
  outcome : ManifestOutcome
  validator : ValidatorOutcome
  deriving Repr, DecidableEq

/-- The manifest path `join(datasetsPath, dir.name, 'manifest.json')`. -/
def manifestPathFor (datasetsPath name : String) : String :=
  datasetsPath ++ "/" ++ name ++ "/manifest.json"

/-- `DatasetRegistry.load`: if the datasets root does not exist, return with
the registry unchanged (warning only); otherwise process each direct
subdirectory's manifest in order.  Note that the source never clears
`this.datasets` or `this.loadErrors`, so `load` starts from the current
state. -/
def RegistryState.load (st : RegistryState) (datasetsPath : String)
    (rootExists : Bool) (dirs : List DirEntry) (now : Nat) : RegistryState :=
  if rootExists then
    dirs.foldl
      (fun acc dir =>
        acc.loadManifest (manifestPathFor datasetsPath dir.name)
          dir.outcome dir.validator now)
      st
  else
    st

/-- `DatasetRegistry.get`. -/
def RegistryState.get (st : RegistryState) (id : String) :
    Option DatasetWithStatus :=
  mapGet st.datasets id

/-- `DatasetRegistry.has`: present and status `ready`. -/
def RegistryState.has (st : RegistryState) (id : String) : Bool :=
  match st.get id with
  | some d => d.status == .ready
  | none => false

/-- `DatasetRegistry.list`. -/
def RegistryState.list (st : RegistryState) : List DatasetWithStatus :=
  mapValues st.datasets

/-- `DatasetRegistry.listReady`. -/
def RegistryState.listReady (st : RegistryState) : List DatasetWithStatus :=
  (mapValues st.datasets).filter (fun d => d.status == .ready)

/-- `DatasetRegistry.getErrors`. -/
def RegistryState.getErrors (st : RegistryState) : List DatasetError :=
  st.loadErrors

/-- The record returned by `DatasetRegistry.getStats`. -/
structure RegistryStats where
  total : Nat
  ready : Nat
  errors : Nat
  deriving Repr, DecidableEq

/-- `DatasetRegistry.getStats`. -/
def RegistryState.getStats (st : RegistryState) : RegistryStats :=
  { total := st.datasets.length + st.loadErrors.length
    ready := st.listReady.length
    errors := st.loadErrors.length }

/-! ## Knowledge store and store cache (`src/store/knowledgeStore.ts`) -/

/-- `KnowledgeStore`: wraps the dataset it was constructed for. -/
structure KnowledgeStore where
  dataset : Dataset
  deriving Repr, DecidableEq

/-- Outcome of one `pythonBridge.search` call: either it resolved with a
response or it rejected with an `Error` carrying this message (execution
failure, timeout, or protocol error — which one only shapes the message). -/
inductive BridgeCallOutcome where
  | ok (resp : PythonBridgeResponse)
  | err (msg : String)
  deriving Repr, DecidableEq

/-- Externally observable effect of a `KnowledgeStore.search` run: a bridge
attempt with the request it marshalled, or a sleep of the given number of
milliseconds. -/
inductive SearchEvent where
  | attempt (r : PythonBridgeRequest)
  | sleep (ms : Nat)
  deriving Repr, DecidableEq

/-- The request object `KnowledgeStore.search` builds: command `search`,
the dataset's resolved index and metadata paths, the query, and
`topK ?? this.dataset.defaultTopK`. -/
def KnowledgeStore.searchRequest (s : KnowledgeStore) (query : String)
    (topK : Option Nat) : PythonBridgeRequest :=
  { command := "search"
    indexPath := s.dataset.index
    metadataPath := some s.dataset.metadata
    query := some query
    topK := some (topK.getD s.dataset.defaultTopK) }

/-- `KnowledgeStore.search`: try once; on failure sleep 1000 ms and retry
the identical request; on the retry failing too, fail with the aggregated
message naming the dataset id.  The two bridge outcomes are passed in
(`first` is consumed only when it is reached, `second` only on retry);
the function returns the result together with the event trace. -/
def KnowledgeStore.search (s : KnowledgeStore) (query : String)
    (topK : Option Nat) (first second : BridgeCallOutcome) :
    Except String (List SearchResult) × List SearchEvent :=
  let request := s.searchRequest query topK
  match first with
  | .ok resp => (.ok resp.results, [.attempt request])
  | .err _ =>
      match second with
      | .ok resp =>
          (.ok resp.results, [.attempt request, .sleep 1000, .attempt request])
      | .err retryMsg =>
          (.error ("Search failed for dataset " ++ s.dataset.id ++ ": " ++ retryMsg),
           [.attempt request, .sleep 1000, .attempt request])

/-- `KnowledgeStoreCache` state: the `stores` map. -/
structure StoreCache where
  stores : List (String × KnowledgeStore)
  deriving Repr, DecidableEq

/-- A fresh cache (also the state right after `clear()`). -/
def StoreCache.empty : StoreCache := ⟨[]⟩

/-- `KnowledgeStoreCache.getStore`: if no store is cached under
`dataset.id`, construct one from the given dataset and cache it; then
return the cached store (the source's trailing `get(dataset.id)!`; the
`none` branch of the final match is unreachable and mirrors the `!`
assertion). -/
def StoreCache.getStore (c : StoreCache) (d : Dataset) :
    KnowledgeStore × StoreCache :=
  let stores1 :=
    if mapHas c.stores d.id then c.stores
    else mapSet c.stores d.id ⟨d⟩
  (match mapGet stores1 d.id with
   | some s => s
   | none => ⟨d⟩,
   ⟨stores1⟩)

/-- `KnowledgeStoreCache.getStats`. -/
def StoreCache.getStats (c : StoreCache) : Nat := c.stores.length

/-! ## Search-query validation (`src/types/searchQuery.ts`)

`SearchQuerySchema` is a Zod object: `dataset` is a string of length 1..64,
`query` is a string that is first trimmed and must then have length 1..1024,
`topK` is an optional integer in 1..100.  Zod reports issues per field in
declaration order; `handleSearch` uses only the first issue. -/

/-- JS `String.prototype.trim` over the string's characters. -/
def jsTrim (s : String) : String :=
  ⟨((s.data.dropWhile Char.isWhitespace).reverse.dropWhile
      Char.isWhitespace).reverse⟩

/-- The arguments of a `knowledge.search` tool call, already shaped (shape
errors are orthogonal to every claim here; `topK` is an `Int` so that the
out-of-range values 0 and 101 are representable). -/
structure SearchArgs where
  dataset : String
  query : String
  topK : Option Int := none
  deriving Repr, DecidableEq

/-- A single Zod issue as used by `handleSearch` (message and path). -/
structure ValidationIssue where
  message : String
  path : List String
  deriving Repr, DecidableEq

/-- The validated output of `SearchQuerySchema`: note `query` is the
trimmed string (Zod's `.trim()` transforms the parsed value). -/
structure SearchQuery where
  dataset : String
  query : String
  topK : Option Nat := none
  deriving Repr, DecidableEq

/-- `SearchQuerySchema.safeParse`, returning the first issue on failure. -/
def validateSearchQuery (a : SearchArgs) : Except ValidationIssue SearchQuery :=
  if a.dataset.length < 1 then
    .error ⟨"String must contain at least 1 character(s)", ["dataset"]⟩
  else if 64 < a.dataset.length then
    .error ⟨"String must contain at most 64 character(s)", ["dataset"]⟩
  else
    let trimmed := jsTrim a.query
    if trimmed.length < 1 then
      .error ⟨"String must contain at least 1 character(s)", ["query"]⟩
    else if 1024 < trimmed.length then
      .error ⟨"String must contain at most 1024 character(s)", ["query"]⟩
    else
      match a.topK with
      | none => .ok ⟨a.dataset, trimmed, none⟩
      | some k =>
          if k < 1 then
            .error ⟨"Number must be greater than or equal to 1", ["topK"]⟩
          else if 100 < k then
            .error ⟨"Number must be less than or equal to 100", ["topK"]⟩
          else
            .ok ⟨a.dataset, trimmed, some k.toNat⟩

/-! ## Search tool handler (`src/tools/search.ts`) -/

/-- One entry of the MCP response's `content` array. -/
structure ToolContent where
  type : String
  text : String
  deriving Repr, DecidableEq

/-- The MCP tool response shape returned by both handlers: a `content`
array and the `isError` flag (absent in the source on success, modelled as
`false`). -/
structure ToolResponse where
  content : List ToolContent
  isError : Bool := false
  deriving Repr, DecidableEq

/-- First `n` characters, JS `String.prototype.substring(0, n)`. -/
def truncateChars (s : String) (n : Nat) : String := ⟨s.data.take n⟩

/-- JS `Number.prototype.toFixed(4)` for the nonnegative scores at hand,
modelled as decimal rounding (round half up) to four fractional digits,
computed on the score's numerator and denominator:
`m = floor(x * 10000 + 1/2) = (num * 20000 + den) / (2 * den)`. -/
def toFixed4 (x : Rat) : String :=
  let m : Nat := (x.num.toNat * 20000 + x.den) / (2 * x.den)
  let fpStr := toString (m % 10000)
  toString (m / 10000) ++ "."
    ++ String.mk (List.replicate (4 - fpStr.length) '0') ++ fpStr

/-- The per-result block of `handleSearch`'s text rendering. -/
def fmtSearchResult (idx : Nat) (r : SearchResult) : String :=
  toString (idx + 1) ++ ". " ++ r.title ++ " (score: " ++ toFixed4 r.score
    ++ ")\n"
    ++ "   Path: " ++ r.path ++ "\n"
    ++ "   Snippet: " ++ truncateChars r.snippet 200
    ++ (if 200 < r.snippet.length then "..." else "") ++ "\n"

/-- The summary text `handleSearch` renders for a non-empty result list. -/
def searchSummary (query : String) (duration : Nat)
    (results : List SearchResult) : String :=
  "Found " ++ toString results.length ++ " result"
    ++ (if results.length == 1 then "" else "s")
    ++ " for \x22" ++ query ++ "\x22 in " ++ toString duration ++ "ms:\n\n"
    ++ String.intercalate "\n"
        (results.enum.map (fun p => fmtSearchResult p.1 p.2))

/-- The validation-failure text of `handleSearch`. -/
def validationText (i : ValidationIssue) : String :=
  "Invalid search parameters: " ++ i.message ++ " at "
    ++ String.intercalate "." i.path

/-- The dataset-not-found text of `handleSearch`. -/
def notFoundText (dsId : String) (avail : List String) : String :=
  "Dataset \x27" ++ dsId ++ "\x27 not found. Available datasets: "
    ++ String.intercalate ", " avail

/-- The zero-results text of `handleSearch`. -/
def noResultsText (query dsId : String) : String :=
  "No results found for query: \x22" ++ query ++ "\x22 in dataset \x22"
    ++ dsId ++ "\x22"

/-- The catch-all failure text of `handleSearch`. -/
def searchFailedText (msg : String) : String := "Search failed: " ++ msg

/-- `handleSearch`: validate, look up the dataset (absent or non-ready is
not-found, listing the ready ids), get-or-create the store, run the
two-attempt search, and shape the response.  `first`/`second` are the
outcomes of the (up to two) bridge calls and `duration` the measured
wall-clock time used in the summary text; the returned triple is the
response, the store cache after the call, and the bridge event trace. -/
def handleSearch (args : SearchArgs) (reg : RegistryState) (cache : StoreCache)
    (first second : BridgeCallOutcome) (duration : Nat) :
    ToolResponse × StoreCache × List SearchEvent :=
  match validateSearchQuery args with
  | .error issue =>
      (⟨[⟨"text", validationText issue⟩], true⟩, cache, [])
  | .ok q =>
      let availableIds := (reg.listReady).map (·.id)
      match reg.get q.dataset with
      | none =>
          (⟨[⟨"text", notFoundText q.dataset availableIds⟩], true⟩, cache, [])
      | some d =>
          if d.status = .ready then
            let sc := cache.getStore d.toDataset
            let out := sc.1.search q.query q.topK first second
            match out.1 with
            | .error msg =>
                (⟨[⟨"text", searchFailedText msg⟩], true⟩, sc.2, out.2)
            | .ok results =>
                if results.isEmpty then
                  (⟨[⟨"text", noResultsText q.query q.dataset⟩], false⟩,
                   sc.2, out.2)
                else
                  (⟨[⟨"text", searchSummary q.query duration results⟩], false⟩,
                   sc.2, out.2)
          else
            (⟨[⟨"text", notFoundText q.dataset availableIds⟩], true⟩, cache, [])

/-! ## listDatasets tool handler (`src/tools/listDatasets.ts`) -/

/-- `DatasetListItem` from `src/tools/listDatasets.ts`. -/
structure DatasetListItem where
  id : String
  name : String
  description : String
  status : String
  error : Option String := none
  deriving Repr, DecidableEq

/-- JS `String.prototype.split` with a single-character separator. -/
def splitOnChar (sep : Char) : List Char → List (List Char)
  | [] => [[]]
  | c :: cs =>
      let rest := splitOnChar sep cs
      if c == sep then [] :: rest
      else
        match rest with
        | [] => [[c]]
        | h :: t => (c :: h) :: t

/-- The id inferred from a failing manifest path:
`pathParts[pathParts.length - 2] || 'unknown'` (an absent part — fewer than
two components — and an empty part are both falsy in JS). -/
def parentDirName (path : String) : String :=
  let parts := splitOnChar '/' path.data
  match (parts.reverse.drop 1).head? with
  | some s => if s.isEmpty then "unknown" else ⟨s⟩
  | none => "unknown"

/-- The item `handleListDatasets` builds for one ready dataset. -/
def readyListItem (d : DatasetWithStatus) : DatasetListItem :=
  { id := d.id, name := d.name, description := d.description
    status := "ready" }

/-- The item `handleListDatasets` builds for one load failure: the id (and
name) are inferred from the failing manifest's parent directory. -/
def errorListItem (e : DatasetError) : DatasetListItem :=
  let datasetId := parentDirName e.manifestPath
  { id := datasetId, name := datasetId
    description := "Failed to load dataset"
    status := "error", error := some e.error }

/-- The `results` list `handleListDatasets` builds: all ready datasets,
then (only when `includeErrors`) one error item per recorded load
failure. -/
def listDatasetsResults (reg : RegistryState) (includeErrors : Bool) :
    List DatasetListItem :=
  let ready := reg.listReady.map readyListItem
  if includeErrors then
    ready ++ reg.getErrors.map errorListItem
  else
    ready

/-- The `(totalCount, readyCount, errorCount)` statistics
`handleListDatasets` computes — over its own `results` list, not over the
registry. -/
def listDatasetsStats (reg : RegistryState) (includeErrors : Bool) :
    Nat × Nat × Nat :=
  let results := listDatasetsResults reg includeErrors
  (results.length,
   (results.filter (fun d => d.status == "ready")).length,
   (results.filter (fun d => d.status == "error")).length)

/-- The summary footer of `handleListDatasets`'s response text: the error
count appears only when `includeErrors` is set and it is nonzero. -/
def listDatasetsFooter (reg : RegistryState) (includeErrors : Bool)
    (duration : Nat) : String :=
  let s := listDatasetsStats reg includeErrors
  "---\n" ++ "Total: " ++ toString s.1 ++ " datasets | Ready: "
    ++ toString s.2.1
    ++ (if includeErrors && decide (0 < s.2.2)
        then " | Errors: " ++ toString s.2.2 else "")
    ++ " | Retrieved in " ++ toString duration ++ "ms"

/-! ## Derived notions used by the statements -/

/-- Did this directory entry's manifest process successfully? -/
def DirEntry.isOk (e : DirEntry) : Bool :=
  match e.outcome with
  | .ok _ => true
  | _ => false

/-- The dataset id this entry registers, when it succeeds. -/
def DirEntry.okId (e : DirEntry) : Option String :=
  match e.outcome with
  | .ok d => some d.id
  | _ => none

/-- The ids the successful entries of a load pass register, in order. -/
def okIds (dirs : List DirEntry) : List String :=
  dirs.filterMap DirEntry.okId

/-- The arguments of one `load()` call (datasets path, whether the root
exists, the directory entries found, the timestamp). -/
structure LoadCall where
  datasetsPath : String
  rootExists : Bool
  dirs : List DirEntry
  now : Nat
  deriving Repr, DecidableEq

/-- A sequence of `load()` calls on the same registry instance. -/
def runLoads (st : RegistryState) (calls : List LoadCall) : RegistryState :=
  calls.foldl
    (fun acc c => acc.load c.datasetsPath c.rootExists c.dirs c.now) st

/-- Every entry of the registry's internal dataset map has status
`ready`. -/
def RegistryState.allReady (st : RegistryState) : Prop :=
  ∀ p ∈ st.datasets, p.2.status = DatasetStatus.ready

/-- The load errors one `load()` pass appends, computed directly from the
directory entries (the pass records one error per failing entry, in
order). -/
def newLoadErrors (path : String) (dirs : List DirEntry) (now : Nat) :
    List DatasetError :=
  dirs.filterMap (fun e =>
    match manifestErrorMessage e.outcome with
    | some msg => some ⟨manifestPathFor path e.name, msg, now⟩
    | none => none)

/-- Is `pat` a contiguous substring of `hay` (character-wise)? -/
def containsSubstr (hay pat : String) : Bool :=
  hay.data.tails.any (fun t => pat.data.isPrefixOf t)

/-! ## Concrete fixtures for witnesses and counterexamples -/

/-- A well-formed dataset, as of a manifest in `/data/docs-a`. -/
def exDatasetA : Dataset :=
  ⟨"docs-a", "Docs A", "API documentation", "/idx/a", "/meta/a.json", 5⟩

/-- A second snapshot bearing the same id as `exDatasetA` but different
paths and defaultTopK, as after editing the manifest and reloading. -/
def exDatasetA2 : Dataset :=
  ⟨"docs-a", "Docs A v2", "API documentation v2", "/idx/a2", "/meta/a2.json", 9⟩

/-- A directory entry that loads `exDatasetA` successfully. -/
def exDirOkA : DirEntry := ⟨"docs-a", .ok exDatasetA, .ok⟩

/-- A directory entry whose manifest fails to parse. -/
def exDirBad : DirEntry := ⟨"docs-b", .parseFailed "Unexpected token in JSON", .ok⟩

/-- A directory entry whose manifest references a missing index. -/
def exDirBad2 : DirEntry := ⟨"docs-c", .indexMissing "/idx/c", .ok⟩

/-- Registry after one load pass over `docs-a` (valid) and `docs-b`
(malformed). -/
def exRegistry : RegistryState :=
  RegistryState.empty.load "/data" true [exDirOkA, exDirBad] 0

/-- `exRegistry` after a second `load()` pass that sees only the failing
`docs-c` directory. -/
def exRegistrySecondLoad : RegistryState :=
  exRegistry.load "/data" true [exDirBad2] 1

/-- What a fresh registry produces from that same second pass alone. -/
def exRegistryFresh : RegistryState :=
  RegistryState.empty.load "/data" true [exDirBad2] 1

/-- A 201-character snippet: its text rendering is truncated to the first
200 characters. -/
def exLongSnippet : String := ⟨List.replicate 200 'b' ++ ['c']⟩

/-- A bridge response with one result carrying `exLongSnippet`. -/
def exResponseLong : PythonBridgeResponse :=
  ⟨[⟨Rat.divInt 1 2, "Guide", "/docs/guide.md", exLongSnippet⟩], 3, 10⟩

/-! ## Lemmas: the JS map model -/

theorem mapGet_map_overwrite {α : Type} (m : List (String × α)) (k : String)
    (v : α) (h : m.any (fun p => p.1 == k) = true) :
    mapGet (m.map (fun p => if p.1 == k then (k, v) else p)) k = some v := by
  induction m with
  | nil => simp at h
  | cons p ps ih =>
      by_cases hp : p.1 == k
      · simp [mapGet, List.find?, hp]
      · simp only [List.any_cons, Bool.or_eq_true] at h
        rcases h with h | h
        · exact absurd h hp
        · simpa [mapGet, List.find?, hp] using ih h

theorem mapGet_append_single {α : Type} (m : List (String × α)) (k : String)
    (v : α) (h : m.any (fun p => p.1 == k) = false) :
    mapGet (m ++ [(k, v)]) k = some v := by
  induction m with
  | nil => simp [mapGet, List.find?]
  | cons p ps ih =>
      simp only [List.any_cons, Bool.or_eq_false_iff] at h
      simpa [mapGet, List.find?, h.1] using ih h.2

theorem mapGet_mapSet_self {α : Type} (m : List (String × α)) (k : String)
    (v : α) : mapGet (mapSet m k v) k = some v := by
  unfold mapSet
  by_cases h : m.any (fun p => p.1 == k)
  · simpa [h] using mapGet_map_overwrite m k v h
  · simp only [Bool.not_eq_true] at h
    simpa [h] using mapGet_append_single m k v h

theorem mapGet_map_ne {α : Type} (m : List (String × α)) (k k' : String)
    (v : α) (h : k' ≠ k) :
    mapGet (m.map (fun p => if p.1 == k then (k, v) else p)) k' =
      mapGet m k' := by
  induction m with
  | nil => rfl
  | cons p ps ih =>
      by_cases hp : p.1 == k
      · have hpk : p.1 = k := by simpa [beq_iff_eq] using hp
        have hk' : ((k : String) == k') = false := by
          simp [beq_iff_eq]; exact fun hkk => h hkk.symm
        have hp' : (p.1 == k') = false := by rw [hpk]; exact hk'
        simpa [mapGet, List.find?, hp, hk', hp'] using ih
      · by_cases hq : p.1 == k'
        · simp [mapGet, List.find?, hp, hq]
        · simpa [mapGet, List.find?, hp, hq] using ih

theorem mapGet_append_ne {α : Type} (m : List (String × α)) (k k' : String)
    (v : α) (h : k' ≠ k) : mapGet (m ++ [(k, v)]) k' = mapGet m k' := by
  induction m with
  | nil =>
      have hk' : ((k : String) == k') = false := by
        simp [beq_iff_eq]; exact fun hkk => h hkk.symm
      simp [mapGet, List.find?, hk']
  | cons p ps ih =>
      by_cases hq : p.1 == k'
      · simp [mapGet, List.find?, hq]
      · simpa [mapGet, List.find?, hq] using ih

theorem mapGet_mapSet_ne {α : Type} (m : List (String × α)) (k k' : String)
    (v : α) (h : k' ≠ k) : mapGet (mapSet m k v) k' = mapGet m k' := by
  unfold mapSet
  by_cases hany : m.any (fun p => p.1 == k)
  · simpa [hany] using mapGet_map_ne m k k' v h
  · simp only [Bool.not_eq_true] at hany
    simpa [hany] using mapGet_append_ne m k k' v h

theorem mapSet_of_get_none {α : Type} (m : List (String × α)) (k : String)
    (v : α) (h : mapGet m k = none) : mapSet m k v = m ++ [(k, v)] := by
  have hany : m.any (fun p => p.1 == k) = false := by
    rcases hfind : m.find? (fun p => p.1 == k) with _ | p
    · rw [List.find?_eq_none] at hfind
      simp only [List.any_eq_false]
      intro x hx
      simpa using hfind x hx
    · simp [mapGet, hfind] at h
  unfold mapSet
  rw [hany]
  simp

theorem mem_mapSet {α : Type} {m : List (String × α)} {k : String} {v : α}
    {q : String × α} (h : q ∈ mapSet m k v) : q = (k, v) ∨ q ∈ m := by
  unfold mapSet at h
  by_cases hany : m.any (fun p => p.1 == k)
  · simp only [hany, if_true, List.mem_map] at h
    rcases h with ⟨p, hp, rfl⟩
    by_cases hpk : p.1 == k
    · simp [hpk]
    · simp [hpk, hp]
  · simp only [Bool.not_eq_true] at hany
    simp only [mapSet, hany, Bool.false_eq_true, if_false, List.mem_append,
      List.mem_singleton] at h
    tauto

/-! ## Lemmas: the dataset registry -/

theorem load_nil (st : RegistryState) (path : String) (now : Nat) :
    st.load path true [] now = st := rfl

theorem load_cons (st : RegistryState) (path : String) (e : DirEntry)
    (es : List DirEntry) (now : Nat) :
    st.load path true (e :: es) now =
      (st.loadManifest (manifestPathFor path e.name) e.outcome e.validator
        now).load path true es now := by
  simp [RegistryState.load]

theorem loadManifest_datasets_of_fail (st : RegistryState) (path : String)
    (o : ManifestOutcome) (v : ValidatorOutcome) (now : Nat)
    (h : ∀ d, o ≠ .ok d) :
    (st.loadManifest path o v now).datasets = st.datasets := by
  cases o <;> first
    | rfl
    | exact absurd rfl (h _)

theorem loadManifest_loadErrors_of_ok (st : RegistryState) (path : String)
    (d : Dataset) (v : ValidatorOutcome) (now : Nat) :
    (st.loadManifest path (.ok d) v now).loadErrors = st.loadErrors := rfl

theorem allReady_loadManifest (st : RegistryState) (path : String)
    (o : ManifestOutcome) (v : ValidatorOutcome) (now : Nat)
    (h : st.allReady) : (st.loadManifest path o v now).allReady := by
  cases o with
  | ok d =>
      intro p hp
      rcases mem_mapSet hp with rfl | hmem
      · rfl
      · exact h p hmem
  | sizeExceeded s => exact h
  | parseFailed m => exact h
  | schemaFailed m => exact h
  | indexMissing p => exact h
  | metadataMissing p => exact h

theorem allReady_load (st : RegistryState) (path : String) (rootExists : Bool)
    (dirs : List DirEntry) (now : Nat) (h : st.allReady) :
    (st.load path rootExists dirs now).allReady := by
  cases rootExists with
  | false => exact h
  | true =>
      induction dirs generalizing st with
      | nil => exact h
      | cons e es ih =>
          rw [load_cons]
          exact ih _ (allReady_loadManifest st _ e.outcome e.validator now h)

theorem allReady_empty : RegistryState.empty.allReady := by
  intro p hp
  simp [RegistryState.empty] at hp

theorem allReady_runLoads (calls : List LoadCall) (st : RegistryState)
    (h : st.allReady) : (runLoads st calls).allReady := by
  induction calls generalizing st with
  | nil => exact h
  | cons c cs ih =>
      exact ih _ (allReady_load st c.datasetsPath c.rootExists c.dirs c.now h)

theorem load_loadErrors (st : RegistryState) (path : String)
    (dirs : List DirEntry) (now : Nat) :
    (st.load path true dirs now).loadErrors =
      st.loadErrors ++ newLoadErrors path dirs now := by
  induction dirs generalizing st with
  | nil => simp [load_nil, newLoadErrors]
  | cons e es ih =>
      rw [load_cons, ih]
      cases e with
      | mk name o v =>
          cases o <;>
            simp [RegistryState.loadManifest, newLoadErrors,
              manifestErrorMessage]

theorem newLoadErrors_length (path : String) (dirs : List DirEntry)
    (now : Nat) :
    (newLoadErrors path dirs now).length =
      (dirs.filter (fun e => !e.isOk)).length := by
  induction dirs with
  | nil => rfl
  | cons e es ih =>
      cases e with
      | mk name o v =>
          cases o <;>
            simp [newLoadErrors, manifestErrorMessage, DirEntry.isOk,
              List.filter] <;>
            simpa [newLoadErrors] using ih

theorem load_get_not_registered (st : RegistryState) (path : String)
    (dirs : List DirEntry) (now : Nat) (id : String)
    (h : id ∉ okIds dirs) :
    (st.load path true dirs now).get id = st.get id := by
  induction dirs generalizing st with
  | nil => rw [load_nil]
  | cons e es ih =>
      rw [load_cons]
      cases e with
      | mk name o v =>
          cases o with
          | ok d =>
              have hne : id ≠ d.id := by
                intro hid
                exact h (by simp [okIds, DirEntry.okId, hid])
              have hrest : id ∉ okIds es := by
                intro hid
                exact h (by simp [okIds, DirEntry.okId] at hid ⊢; tauto)
              rw [ih _ hrest]
              exact mapGet_mapSet_ne _ _ _ _ hne
          | sizeExceeded s =>
              rw [ih _ (by simpa [okIds, DirEntry.okId] using h)]
              rfl
          | parseFailed m =>
              rw [ih _ (by simpa [okIds, DirEntry.okId] using h)]
              rfl
          | schemaFailed m =>
              rw [ih _ (by simpa [okIds, DirEntry.okId] using h)]
              rfl
          | indexMissing p =>
              rw [ih _ (by simpa [okIds, DirEntry.okId] using h)]
              rfl
          | metadataMissing p =>
              rw [ih _ (by simpa [okIds, DirEntry.okId] using h)]
              rfl

theorem okIds_cons_ok (name : String) (d : Dataset) (v : ValidatorOutcome)
    (es : List DirEntry) :
    okIds (⟨name, .ok d, v⟩ :: es) = d.id :: okIds es := by
  simp [okIds, DirEntry.okId]

theorem okIds_cons_fail (e : DirEntry) (es : List DirEntry)
    (h : ∀ d, e.outcome ≠ .ok d) : okIds (e :: es) = okIds es := by
  cases e with
  | mk name o v =>
      cases o <;> first
        | exact absurd rfl (h _)
        | simp [okIds, DirEntry.okId]

theorem okIds_cons_of_ok (e : DirEntry) (es : List DirEntry) (d : Dataset)
    (h : e.outcome = .ok d) : okIds (e :: es) = d.id :: okIds es := by
  simp [okIds, DirEntry.okId, h]

theorem nodup_okIds_tail (e0 : DirEntry) (es : List DirEntry)
    (h : (okIds (e0 :: es)).Nodup) : (okIds es).Nodup := by
  rcases ho : e0.outcome with s | m | m | p | p | d
  · rwa [okIds_cons_fail e0 es (by simp [ho])] at h
  · rwa [okIds_cons_fail e0 es (by simp [ho])] at h
  · rwa [okIds_cons_fail e0 es (by simp [ho])] at h
  · rwa [okIds_cons_fail e0 es (by simp [ho])] at h
  · rwa [okIds_cons_fail e0 es (by simp [ho])] at h
  · rw [okIds_cons_of_ok e0 es d ho] at h
    exact h.of_cons

theorem loadManifest_get_self (st : RegistryState) (path : String)
    (d : Dataset) (v : ValidatorOutcome) (now : Nat) :
    (st.loadManifest path (.ok d) v now).get d.id =
      some { toDataset := d, status := .ready } := by
  simp only [RegistryState.loadManifest, RegistryState.get]
  exact mapGet_mapSet_self _ _ _

theorem load_get_registered (path : String) (now : Nat) :
    ∀ (dirs : List DirEntry) (st : RegistryState), (okIds dirs).Nodup →
    ∀ e ∈ dirs, ∀ d : Dataset, e.outcome = .ok d →
    (st.load path true dirs now).get d.id =
      some { toDataset := d, status := .ready } := by
  intro dirs
  induction dirs with
  | nil => intro st _ e he; simp at he
  | cons e0 es ih =>
      intro st hnodup e he d hd
      rw [load_cons]
      rcases List.mem_cons.mp he with rfl | hes
      · have hid : d.id ∉ okIds es := by
          rw [okIds_cons_of_ok e es d hd] at hnodup
          exact (List.nodup_cons.mp hnodup).1
        rw [load_get_not_registered _ path es now _ hid, hd]
        exact loadManifest_get_self st _ d e.validator now
      · exact ih _ (nodup_okIds_tail e0 es hnodup) e hes d hd

theorem load_datasets_length_fail_aux (path : String) (now : Nat)
    (name : String) (o : ManifestOutcome) (v : ValidatorOutcome)
    (es : List DirEntry) (st : RegistryState)
    (hfail : ∀ d, o ≠ .ok d)
    (ih : ∀ st : RegistryState, (okIds es).Nodup →
      (∀ i ∈ okIds es, st.get i = none) →
      (st.load path true es now).datasets.length =
        st.datasets.length + (okIds es).length)
    (hnodup : (okIds (⟨name, o, v⟩ :: es)).Nodup)
    (hfresh : ∀ i ∈ okIds (⟨name, o, v⟩ :: es), st.get i = none) :
    ((st.loadManifest (manifestPathFor path name) o v now).load path true es
        now).datasets.length =
      st.datasets.length + (okIds (⟨name, o, v⟩ :: es)).length := by
  have hok : okIds (⟨name, o, v⟩ :: es) = okIds es :=
    okIds_cons_fail _ es (fun d => hfail d)
  have hget : ∀ i, (st.loadManifest (manifestPathFor path name) o v now).get i
      = st.get i := by
    intro i
    unfold RegistryState.get
    rw [loadManifest_datasets_of_fail st _ o v now hfail]
  rw [hok, ih _ (by rwa [hok] at hnodup)
    (fun i hi => by rw [hget]; exact hfresh i (by rw [hok]; exact hi))]
  congr 2
  exact loadManifest_datasets_of_fail st _ o v now hfail

theorem load_datasets_length (path : String) (now : Nat) :
    ∀ (dirs : List DirEntry) (st : RegistryState), (okIds dirs).Nodup →
    (∀ i ∈ okIds dirs, st.get i = none) →
    (st.load path true dirs now).datasets.length =
      st.datasets.length + (okIds dirs).length := by
  intro dirs
  induction dirs with
  | nil => intro st _ _; rw [load_nil]; rfl
  | cons e0 es ih =>
      intro st hnodup hfresh
      rw [load_cons]
      cases e0 with
      | mk name o v =>
          cases o with
          | ok d =>
              have hcons : okIds (⟨name, .ok d, v⟩ :: es) = d.id :: okIds es :=
                okIds_cons_of_ok _ es d rfl
              have hdid : st.get d.id = none :=
                hfresh d.id (by rw [hcons]; exact List.mem_cons_self _ _)
              have hid : d.id ∉ okIds es := by
                rw [hcons] at hnodup
                exact (List.nodup_cons.mp hnodup).1
              have hfresh' : ∀ i ∈ okIds es,
                  (st.loadManifest (manifestPathFor path name) (.ok d) v
                    now).get i = none := by
                intro i hi
                have hne : i ≠ d.id := fun hie => hid (hie ▸ hi)
                show mapGet (mapSet st.datasets d.id _) i = none
                rw [mapGet_mapSet_ne _ _ _ _ hne]
                exact hfresh i (by rw [hcons]; exact List.mem_cons_of_mem _ hi)
              rw [ih _ (nodup_okIds_tail _ es hnodup) hfresh', hcons]
              have hlen : (st.loadManifest (manifestPathFor path name)
                  (.ok d) v now).datasets.length = st.datasets.length + 1 := by
                show (mapSet st.datasets d.id _).length = _
                rw [mapSet_of_get_none _ _ _ hdid]
                simp
              rw [hlen]
              simp only [List.length_cons]
              omega
          | sizeExceeded s =>
              exact load_datasets_length_fail_aux path now name _ v es st
                (by simp) ih hnodup hfresh
          | parseFailed m =>
              exact load_datasets_length_fail_aux path now name _ v es st
                (by simp) ih hnodup hfresh
          | schemaFailed m =>
              exact load_datasets_length_fail_aux path now name _ v es st
                (by simp) ih hnodup hfresh
          | indexMissing p =>
              exact load_datasets_length_fail_aux path now name _ v es st
                (by simp) ih hnodup hfresh
          | metadataMissing p =>
              exact load_datasets_length_fail_aux path now name _ v es st
                (by simp) ih hnodup hfresh

theorem okIds_length (dirs : List DirEntry) :
    (okIds dirs).length = (dirs.filter (fun e => e.isOk)).length := by
  induction dirs with
  | nil => rfl
  | cons e es ih =>
      cases e with
      | mk name o v =>
          cases o <;>
            simp [okIds, DirEntry.okId, DirEntry.isOk, List.filter] <;>
            simpa [okIds] using ih

theorem filter_isOk_partition (dirs : List DirEntry) :
    (dirs.filter (fun e => e.isOk)).length
      + (dirs.filter (fun e => !e.isOk)).length = dirs.length := by
  induction dirs with
  | nil => rfl
  | cons e es ih =>
      cases he : e.isOk <;> simp [List.filter, he] <;> omega

theorem get_ready_of_allReady (st : RegistryState) (h : st.allReady)
    (id : String) (d : DatasetWithStatus) (hget : st.get id = some d) :
    d.status = .ready := by
  unfold RegistryState.get mapGet at hget
  rcases hfind : st.datasets.find? (fun p => p.1 == id) with _ | p
  · rw [hfind] at hget; simp at hget
  · rw [hfind] at hget
    simp only [Option.map_some'] at hget
    have hmem := List.mem_of_find?_eq_some hfind
    rw [← Option.some.inj hget]
    exact h p hmem

theorem has_eq_isSome_of_allReady (st : RegistryState) (h : st.allReady)
    (id : String) : st.has id = (st.get id).isSome := by
  unfold RegistryState.has
  rcases hget : st.get id with _ | d
  · rfl
  · have := get_ready_of_allReady st h id d hget
    simp [this]

theorem listReady_eq_list_of_allReady (st : RegistryState)
    (h : st.allReady) : st.listReady = st.list := by
  unfold RegistryState.listReady RegistryState.list
  apply List.filter_eq_self.mpr
  intro d hd
  rcases List.mem_map.mp hd with ⟨p, hp, rfl⟩
  simp [beq_iff_eq]
  exact h p hp

theorem listReady_length_of_allReady (st : RegistryState)
    (h : st.allReady) : st.listReady.length = st.datasets.length := by
  rw [listReady_eq_list_of_allReady st h]
  unfold RegistryState.list mapValues
  exact List.length_map _ _

/-! ## Lemmas: the knowledge-store cache -/

theorem getStore_hit (c : StoreCache) (d : Dataset) (s : KnowledgeStore)
    (h : mapGet c.stores d.id = some s) : c.getStore d = (s, c) := by
  simp [StoreCache.getStore, mapHas, h]

theorem getStore_miss (c : StoreCache) (d : Dataset)
    (h : mapGet c.stores d.id = none) :
    c.getStore d = (⟨d⟩, ⟨mapSet c.stores d.id ⟨d⟩⟩) := by
  simp [StoreCache.getStore, mapHas, h, mapGet_mapSet_self]

/-! ## Claims -/

/-- C1: for every search whose first bridge attempt fails, the store sleeps
exactly 1000 ms once and reissues the identical request exactly once; a
successful retry returns exactly the retry's results, and a failed retry
surfaces a single aggregated error whose message names the dataset id and
contains the retry failure's message (and nothing else is returned). -/
theorem search_retry_once_fixed_delay
    (s : KnowledgeStore) (q : String) (k : Option Nat) (e1 : String)
    (resp : PythonBridgeResponse) (e2 : String) :
    s.search q k (.err e1) (.ok resp) =
      (.ok resp.results,
       [.attempt (s.searchRequest q k), .sleep 1000,
        .attempt (s.searchRequest q k)])
    ∧ s.search q k (.err e1) (.err e2) =
        (.error ("Search failed for dataset " ++ s.dataset.id ++ ": " ++ e2),
         [.attempt (s.searchRequest q k), .sleep 1000,
          .attempt (s.searchRequest q k)])
    ∧ (∃ pre post,
        "Search failed for dataset " ++ s.dataset.id ++ ": " ++ e2 =
          pre ++ s.dataset.id ++ post)
    ∧ (∃ pre,
        "Search failed for dataset " ++ s.dataset.id ++ ": " ++ e2 =
          pre ++ e2) := by
  refine ⟨rfl, rfl,
    ⟨"Search failed for dataset ", ": " ++ e2, ?_⟩,
    ⟨"Search failed for dataset " ++ s.dataset.id ++ ": ", rfl⟩⟩
  simp [String.append_assoc]

/-- C7: when a manifest parses, validates, and its resolved paths exist
(outcome `ok`), the index-validator outcome — success, returned error
status, or thrown failure — has no effect at all on the resulting state:
the dataset is registered `ready` under its id and no load error is
recorded. -/
theorem validator_failure_does_not_block_registration
    (st : RegistryState) (path : String) (d : Dataset)
    (v v' : ValidatorOutcome) (now : Nat) :
    st.loadManifest path (.ok d) v now = st.loadManifest path (.ok d) v' now
    ∧ (st.loadManifest path (.ok d) v now).get d.id =
        some { toDataset := d, status := .ready }
    ∧ (st.loadManifest path (.ok d) v now).loadErrors = st.loadErrors :=
  ⟨rfl, loadManifest_get_self st path d v now, rfl⟩

/-- C8: two consecutive `getStore` calls with datasets bearing the same id
return the same store handle and the second call leaves the cache
unchanged; moreover when a store is already cached for the id, `getStore`
returns it without constructing anything (cache state unchanged) — so at
most one store is ever constructed per id until the cache is cleared. -/
theorem getStore_idempotent_per_id (c : StoreCache) (d1 d2 : Dataset)
    (h : d1.id = d2.id) :
    ((c.getStore d1).2.getStore d2).1 = (c.getStore d1).1
    ∧ ((c.getStore d1).2.getStore d2).2 = (c.getStore d1).2
    ∧ ∀ s, mapGet c.stores d1.id = some s → c.getStore d1 = (s, c) := by
  rcases hc : mapGet c.stores d1.id with _ | s
  · have h1 := getStore_miss c d1 hc
    have h2 : ((c.getStore d1).2).getStore d2 = (⟨d1⟩, (c.getStore d1).2) := by
      rw [h1]
      apply getStore_hit
      show mapGet (mapSet c.stores d1.id ⟨d1⟩) d2.id = some ⟨d1⟩
      rw [← h]
      exact mapGet_mapSet_self _ _ _
    refine ⟨?_, ?_, ?_⟩
    · rw [h2, h1]
    · rw [h2]
    · intro s hs
      exact absurd hs.symm (by simp)
  · have h1 := getStore_hit c d1 s hc
    have h2 : ((c.getStore d1).2).getStore d2 = (s, c) := by
      rw [h1]
      apply getStore_hit
      rw [← h]
      exact hc
    refine ⟨?_, ?_, ?_⟩
    · rw [h2, h1]
    · rw [h2, h1]
    · intro s' hs'
      rw [← Option.some.inj hs']
      exact h1

/-- Witness for C8 at a concrete cache and two concrete snapshots sharing
the id `docs-a`. -/
theorem getStore_idempotent_per_id_witness :
    exDatasetA.id = exDatasetA2.id
    ∧ (((StoreCache.empty.getStore exDatasetA).2.getStore exDatasetA2).1 =
          (StoreCache.empty.getStore exDatasetA).1
        ∧ ((StoreCache.empty.getStore exDatasetA).2.getStore exDatasetA2).2 =
            (StoreCache.empty.getStore exDatasetA).2
        ∧ ∀ s, mapGet StoreCache.empty.stores exDatasetA.id = some s →
            StoreCache.empty.getStore exDatasetA = (s, StoreCache.empty)) :=
  ⟨rfl, getStore_idempotent_per_id StoreCache.empty exDatasetA exDatasetA2 rfl⟩

/-- C10: the store cache keys only on the dataset id: after `getStore d1`
on a cache with no entry for the id, a second call with any snapshot `d2`
bearing the same id returns the store constructed from `d1`, whose search
requests use `d1`'s index path, metadata path, and (when the caller gives
no topK) `d1`'s defaultTopK. -/
theorem getStore_ignores_snapshot_after_first (c : StoreCache)
    (d1 d2 : Dataset) (q : String) (k : Option Nat)
    (hid : d1.id = d2.id) (hmiss : mapGet c.stores d1.id = none) :
    (((c.getStore d1).2.getStore d2).1).dataset = d1
    ∧ (((c.getStore d1).2.getStore d2).1).searchRequest q k =
        { command := "search", indexPath := d1.index,
          metadataPath := some d1.metadata, query := some q,
          topK := some (k.getD d1.defaultTopK) } := by
  have h1 := getStore_miss c d1 hmiss
  have h2 : ((c.getStore d1).2).getStore d2 = (⟨d1⟩, (c.getStore d1).2) := by
    rw [h1]
    apply getStore_hit
    show mapGet (mapSet c.stores d1.id ⟨d1⟩) d2.id = some ⟨d1⟩
    rw [← hid]
    exact mapGet_mapSet_self _ _ _
  rw [h2]
  exact ⟨rfl, rfl⟩

/-- Witness for C10: `exDatasetA2` shares the id of `exDatasetA` but has
different paths and defaultTopK; after caching `exDatasetA`, the store
returned for `exDatasetA2` still carries `exDatasetA` and its request uses
`exDatasetA`'s paths and defaultTopK. -/
theorem getStore_ignores_snapshot_after_first_witness :
    exDatasetA.id = exDatasetA2.id
    ∧ mapGet StoreCache.empty.stores exDatasetA.id = none
    ∧ ((((StoreCache.empty.getStore exDatasetA).2.getStore
            exDatasetA2).1).dataset = exDatasetA
        ∧ (((StoreCache.empty.getStore exDatasetA).2.getStore
              exDatasetA2).1).searchRequest "hello" none =
            { command := "search", indexPath := exDatasetA.index,
              metadataPath := some exDatasetA.metadata,
              query := some "hello",
              topK := some (Option.none.getD exDatasetA.defaultTopK) }) :=
  ⟨rfl, rfl,
    getStore_ignores_snapshot_after_first StoreCache.empty exDatasetA
      exDatasetA2 "hello" none rfl rfl⟩

/-- C9: after any sequence of `load()` calls on a fresh registry, every
entry of the internal dataset map has status `ready`; hence `get` never
returns an `error`-status dataset, `has(id)` holds exactly when `get(id)`
is present, `list()` equals `listReady()`, and the stats satisfy
`total = ready + errors`. -/
theorem registry_entries_always_ready (calls : List LoadCall) :
    (runLoads RegistryState.empty calls).allReady
    ∧ (∀ id d, (runLoads RegistryState.empty calls).get id = some d →
        d.status = .ready)
    ∧ (∀ id, (runLoads RegistryState.empty calls).has id =
        ((runLoads RegistryState.empty calls).get id).isSome)
    ∧ (runLoads RegistryState.empty calls).list =
        (runLoads RegistryState.empty calls).listReady
    ∧ (runLoads RegistryState.empty calls).getStats.total =
        (runLoads RegistryState.empty calls).getStats.ready +
          (runLoads RegistryState.empty calls).getStats.errors := by
  have hAR := allReady_runLoads calls RegistryState.empty allReady_empty
  refine ⟨hAR, fun id d h => get_ready_of_allReady _ hAR id d h,
    fun id => has_eq_isSome_of_allReady _ hAR id,
    (listReady_eq_list_of_allReady _ hAR).symm, ?_⟩
  show (runLoads RegistryState.empty calls).datasets.length +
      (runLoads RegistryState.empty calls).loadErrors.length =
    (runLoads RegistryState.empty calls).listReady.length +
      (runLoads RegistryState.empty calls).loadErrors.length
  rw [listReady_length_of_allReady _ hAR]

/-- Witness for C9: one concrete load pass; `get "docs-a"` is a ready
entry and the theorem's consequence applies to it. -/
theorem registry_entries_always_ready_witness :
    (runLoads RegistryState.empty [⟨"/data", true, [exDirOkA, exDirBad], 0⟩]).get
        "docs-a" = some { toDataset := exDatasetA, status := .ready }
    ∧ ({ toDataset := exDatasetA, status := .ready }
        : DatasetWithStatus).status = .ready :=
  ⟨by decide,
   (registry_entries_always_ready
      [⟨"/data", true, [exDirOkA, exDirBad], 0⟩]).2.1 "docs-a"
      { toDataset := exDatasetA, status := .ready } (by decide)⟩

/-- C2: a load pass over directories with pairwise distinct registered ids
where exactly one entry fails registers every other entry's dataset as
ready and records exactly one load error. -/
theorem load_isolates_single_malformed_manifest (path : String) (now : Nat)
    (dirs : List DirEntry) (hnodup : (okIds dirs).Nodup)
    (hone : (dirs.filter (fun e => !e.isOk)).length = 1) :
    (RegistryState.empty.load path true dirs now).listReady.length =
        dirs.length - 1
    ∧ (RegistryState.empty.load path true dirs now).loadErrors.length = 1
    ∧ ∀ e ∈ dirs, ∀ d : Dataset, e.outcome = .ok d →
        (RegistryState.empty.load path true dirs now).get d.id =
          some { toDataset := d, status := .ready } := by
  have hAR :=
    allReady_load RegistryState.empty path true dirs now allReady_empty
  have hlen := load_datasets_length path now dirs RegistryState.empty hnodup
    (fun i _ => rfl)
  have hready := listReady_length_of_allReady _ hAR
  have hok := okIds_length dirs
  have hpart := filter_isOk_partition dirs
  refine ⟨?_, ?_,
    fun e he d hd =>
      load_get_registered path now dirs RegistryState.empty hnodup e he d hd⟩
  · have h0 : (RegistryState.empty).datasets.length = 0 := rfl
    rw [hready, hlen]
    omega
  · rw [load_loadErrors]
    have h0 : (RegistryState.empty).loadErrors = [] := rfl
    rw [h0]
    simpa [newLoadErrors_length] using hone

/-- Witness for C2 at a concrete two-directory pass with one malformed
manifest. -/
theorem load_isolates_single_malformed_manifest_witness :
    (okIds [exDirOkA, exDirBad]).Nodup
    ∧ (([exDirOkA, exDirBad].filter (fun e => !e.isOk)).length = 1)
    ∧ ((RegistryState.empty.load "/data" true [exDirOkA, exDirBad]
          0).listReady.length = [exDirOkA, exDirBad].length - 1
        ∧ (RegistryState.empty.load "/data" true [exDirOkA, exDirBad]
            0).loadErrors.length = 1
        ∧ ∀ e ∈ [exDirOkA, exDirBad], ∀ d : Dataset, e.outcome = .ok d →
            (RegistryState.empty.load "/data" true [exDirOkA, exDirBad]
              0).get d.id = some { toDataset := d, status := .ready }) :=
  ⟨by decide, by decide,
   load_isolates_single_malformed_manifest "/data" 0 [exDirOkA, exDirBad]
     (by decide) (by decide)⟩

/-- C3 counterexample: after a first load pass (one ready dataset, one
error) and a second pass over a single failing directory, the registry's
datasets and load errors are not those the second pass alone produces:
`docs-a` from the first pass is still registered and the first pass's
error is still recorded. -/
theorem load_replaces_snapshot_counterexample :
    exRegistrySecondLoad.datasets ≠ exRegistryFresh.datasets
    ∧ exRegistrySecondLoad.loadErrors ≠ exRegistryFresh.loadErrors
    ∧ exRegistrySecondLoad.get "docs-a" =
        some { toDataset := exDatasetA, status := .ready }
    ∧ exRegistryFresh.get "docs-a" = none
    ∧ exRegistrySecondLoad.loadErrors.length = 2
    ∧ exRegistryFresh.loadErrors.length = 1 := by
  decide

/-- C3 amended: re-running `load()` accumulates instead of replacing: the
new pass appends its load errors to those already recorded, and every
dataset whose id the new pass does not register is retained unchanged
(entries whose ids are re-registered are overwritten in place). -/
theorem load_accumulates_across_reloads (st : RegistryState) (path : String)
    (dirs : List DirEntry) (now : Nat) :
    (st.load path true dirs now).loadErrors =
      st.loadErrors ++ newLoadErrors path dirs now
    ∧ ∀ id, id ∉ okIds dirs →
        (st.load path true dirs now).get id = st.get id :=
  ⟨load_loadErrors st path dirs now,
   fun id h => load_get_not_registered st path dirs now id h⟩

/-- Witness for the amended C3 at the concrete second load pass. -/
theorem load_accumulates_across_reloads_witness :
    ("docs-a" ∉ okIds [exDirBad2])
    ∧ (exRegistry.load "/data" true [exDirBad2] 1).loadErrors =
        exRegistry.loadErrors ++ newLoadErrors "/data" [exDirBad2] 1
    ∧ (exRegistry.load "/data" true [exDirBad2] 1).get "docs-a" =
        exRegistry.get "docs-a" :=
  ⟨by decide,
   (load_accumulates_across_reloads exRegistry "/data" [exDirBad2] 1).1,
   (load_accumulates_across_reloads exRegistry "/data" [exDirBad2] 1).2
     "docs-a" (by decide)⟩

theorem filter_map_all {α β : Type} (l : List α) (f : α → β) (p : β → Bool)
    (h : ∀ x, p (f x) = true) : (l.map f).filter p = l.map f := by
  induction l with
  | nil => rfl
  | cons a as ih => simp [List.filter, h a, ih]

theorem filter_map_nil {α β : Type} (l : List α) (f : α → β) (p : β → Bool)
    (h : ∀ x, p (f x) = false) : (l.map f).filter p = [] := by
  induction l with
  | nil => rfl
  | cons a as ih => simp [List.filter, h a, ih]

theorem ready_beq_ready : (("ready" : String) == "ready") = true := by decide

theorem ready_beq_error : (("ready" : String) == "error") = false := by decide

theorem error_beq_ready : (("error" : String) == "ready") = false := by decide

theorem error_beq_error : (("error" : String) == "error") = true := by decide

/-- C5 counterexample: on a registry with one ready dataset and one
recorded load failure, `listDatasets` with includeErrors=false reports
total=1, ready=1, errors=0 — total is not ready plus error over all
registered datasets and recorded load failures (that sum is 2), and the
response's footer omits the error count entirely. -/
theorem listDatasets_counts_counterexample :
    (listDatasetsStats exRegistry false).1 = 1
    ∧ exRegistry.listReady.length + exRegistry.loadErrors.length = 2
    ∧ ¬((listDatasetsStats exRegistry false).1 =
        exRegistry.listReady.length + exRegistry.loadErrors.length)
    ∧ containsSubstr (listDatasetsFooter exRegistry false 5) "Errors" =
        false := by
  decide

/-- C5 amended: both with and without includeErrors the reported counts
satisfy total = ready + errors over the handler's own results list, and
ready is always the registry's ready count — but errors equals the number
of recorded load failures only when includeErrors is true; otherwise it is
0 and total omits the load failures. -/
theorem listDatasets_counts_amended (reg : RegistryState)
    (includeErrors : Bool) :
    (listDatasetsStats reg includeErrors).1 =
      (listDatasetsStats reg includeErrors).2.1 +
        (listDatasetsStats reg includeErrors).2.2
    ∧ (listDatasetsStats reg includeErrors).2.1 = reg.listReady.length
    ∧ (listDatasetsStats reg includeErrors).2.2 =
        (if includeErrors then reg.loadErrors.length else 0) := by
  cases includeErrors with
  | false =>
      unfold listDatasetsStats listDatasetsResults
      simp only [Bool.false_eq_true, if_false]
      rw [filter_map_all reg.listReady readyListItem
            (fun d => d.status == "ready") (fun x => ready_beq_ready),
        filter_map_nil reg.listReady readyListItem
          (fun d => d.status == "error") (fun x => ready_beq_error)]
      simp
  | true =>
      unfold listDatasetsStats listDatasetsResults
      simp only [if_true]
      rw [List.filter_append, List.filter_append,
        filter_map_all reg.listReady readyListItem
          (fun d => d.status == "ready") (fun x => ready_beq_ready),
        filter_map_nil reg.getErrors errorListItem
          (fun d => d.status == "ready") (fun x => error_beq_ready),
        filter_map_nil reg.listReady readyListItem
          (fun d => d.status == "error") (fun x => ready_beq_error),
        filter_map_all reg.getErrors errorListItem
          (fun d => d.status == "error") (fun x => error_beq_error)]
      simp [RegistryState.getErrors]

theorem dropWhile_replicate_not (n : Nat) (c : Char)
    (hc : Char.isWhitespace c = false) :
    (List.replicate n c).dropWhile Char.isWhitespace = List.replicate n c := by
  cases n with
  | zero => rfl
  | succ m => simp [List.replicate_succ, List.dropWhile_cons, hc]

theorem jsTrim_replicate (n : Nat) (c : Char)
    (hc : Char.isWhitespace c = false) :
    jsTrim ⟨List.replicate n c⟩ = ⟨List.replicate n c⟩ := by
  unfold jsTrim
  apply congrArg String.mk
  change (((List.replicate n c).dropWhile _).reverse.dropWhile _).reverse = _
  rw [dropWhile_replicate_not n c hc, List.reverse_replicate,
    dropWhile_replicate_not n c hc, List.reverse_replicate]

theorem jsTrim_replicate_length (n : Nat) (c : Char)
    (hc : Char.isWhitespace c = false) :
    (jsTrim ⟨List.replicate n c⟩).length = n := by
  rw [jsTrim_replicate n c hc]
  show (List.replicate n c).length = n
  exact List.length_replicate n c

/-- C4: `SearchQuerySchema` accepts exactly the boundary values the spec
fixes — topK 0 and 101 rejected, 1 and 100 accepted; a whitespace-only
query rejected for every topK; a 1024-character query accepted and a
1025-character one rejected — and every rejection makes `handleSearch`
return the structured validation-error response while leaving the store
cache untouched and issuing no bridge call, independent of the registry. -/
theorem search_validation_boundaries
    (ds q wq : String) (reg : RegistryState) (cache : StoreCache)
    (first second : BridgeCallOutcome) (dur : Nat)
    (hds1 : 1 ≤ ds.length) (hds2 : ds.length ≤ 64)
    (hq1 : 1 ≤ (jsTrim q).length) (hq2 : (jsTrim q).length ≤ 1024)
    (hwq : (jsTrim wq).length = 0) :
    (validateSearchQuery ⟨ds, q, some 0⟩).isOk = false
    ∧ (validateSearchQuery ⟨ds, q, some 101⟩).isOk = false
    ∧ (validateSearchQuery ⟨ds, q, some 1⟩).isOk = true
    ∧ (validateSearchQuery ⟨ds, q, some 100⟩).isOk = true
    ∧ (∀ k, (validateSearchQuery ⟨ds, wq, k⟩).isOk = false)
    ∧ (validateSearchQuery ⟨ds, ⟨List.replicate 1024 'a'⟩, none⟩).isOk = true
    ∧ (validateSearchQuery ⟨ds, ⟨List.replicate 1025 'a'⟩, none⟩).isOk = false
    ∧ (∀ a issue, validateSearchQuery a = .error issue →
        handleSearch a reg cache first second dur =
          (⟨[⟨"text", validationText issue⟩], true⟩, cache, [])) := by
  have hA : ¬(ds.length < 1) := by omega
  have hB : ¬(64 < ds.length) := by omega
  have hC : ¬((jsTrim q).length < 1) := by omega
  have hD : ¬(1024 < (jsTrim q).length) := by omega
  have h1024 : (jsTrim ⟨List.replicate 1024 'a'⟩).length = 1024 :=
    jsTrim_replicate_length 1024 'a' (by decide)
  have h1025 : (jsTrim ⟨List.replicate 1025 'a'⟩).length = 1025 :=
    jsTrim_replicate_length 1025 'a' (by decide)
  refine ⟨?_, ?_, ?_, ?_, ?_, ?_, ?_, ?_⟩
  · simp [validateSearchQuery, hA, hB, hC, hD, Except.isOk, Except.toBool]
  · simp [validateSearchQuery, hA, hB, hC, hD, Except.isOk, Except.toBool]
  · simp [validateSearchQuery, hA, hB, hC, hD, Except.isOk, Except.toBool]
  · simp [validateSearchQuery, hA, hB, hC, hD, Except.isOk, Except.toBool]
  · intro k
    cases k with
    | none =>
        simp [validateSearchQuery, hA, hB, hwq, Except.isOk, Except.toBool]
    | some k =>
        simp [validateSearchQuery, hA, hB, hwq, Except.isOk, Except.toBool]
  · have e1 : ¬((jsTrim ⟨List.replicate 1024 'a'⟩).length < 1) := by omega
    have e2 : ¬(1024 < (jsTrim ⟨List.replicate 1024 'a'⟩).length) := by omega
    simp only [validateSearchQuery]
    rw [if_neg hA, if_neg hB, if_neg e1, if_neg e2]
    rfl
  · have e1 : ¬((jsTrim ⟨List.replicate 1025 'a'⟩).length < 1) := by omega
    have e2 : 1024 < (jsTrim ⟨List.replicate 1025 'a'⟩).length := by omega
    simp only [validateSearchQuery]
    rw [if_neg hA, if_neg hB, if_neg e1, if_pos e2]
    rfl
  · intro a issue h
    unfold handleSearch
    rw [h]

/-- Witness for C4 at concrete strings: a 4-character dataset id, the
query `hello`, and a single-space whitespace-only query. -/
theorem search_validation_boundaries_witness :
    1 ≤ ("docs" : String).length
    ∧ ("docs" : String).length ≤ 64
    ∧ 1 ≤ (jsTrim "hello").length
    ∧ (jsTrim "hello").length ≤ 1024
    ∧ (jsTrim " ").length = 0
    ∧ ((validateSearchQuery ⟨"docs", "hello", some 0⟩).isOk = false
      ∧ (validateSearchQuery ⟨"docs", "hello", some 101⟩).isOk = false
      ∧ (validateSearchQuery ⟨"docs", "hello", some 1⟩).isOk = true
      ∧ (validateSearchQuery ⟨"docs", "hello", some 100⟩).isOk = true
      ∧ (∀ k, (validateSearchQuery ⟨"docs", " ", k⟩).isOk = false)
      ∧ (validateSearchQuery
          ⟨"docs", ⟨List.replicate 1024 'a'⟩, none⟩).isOk = true
      ∧ (validateSearchQuery
          ⟨"docs", ⟨List.replicate 1025 'a'⟩, none⟩).isOk = false
      ∧ (∀ a issue, validateSearchQuery a = .error issue →
          handleSearch a RegistryState.empty StoreCache.empty
            (.err "down") (.err "down") 7 =
            (⟨[⟨"text", validationText issue⟩], true⟩,
             StoreCache.empty, []))) :=
  ⟨by decide, by decide, by decide, by decide, by decide,
   search_validation_boundaries "docs" "hello" " " RegistryState.empty
     StoreCache.empty (.err "down") (.err "down") 7
     (by decide) (by decide) (by decide) (by decide) (by decide)⟩

/-- C6 counterexample: a concrete successful search whose single result
carries a 201-character snippet produces a non-error response in which no
content item contains the untruncated snippet — only the 200-character
truncation appears — so no untruncated structured result list is preserved
anywhere in the response. -/
theorem search_response_no_structured_payload_counterexample :
    ((handleSearch ⟨"docs-a", "hello", none⟩ exRegistry StoreCache.empty
        (.ok exResponseLong) (.err "x") 12).1).isError = false
    ∧ exResponseLong.results.length = 1
    ∧ ((handleSearch ⟨"docs-a", "hello", none⟩ exRegistry StoreCache.empty
        (.ok exResponseLong) (.err "x") 12).1).content.all
        (fun c => !(containsSubstr c.text exLongSnippet)) = true
    ∧ ((handleSearch ⟨"docs-a", "hello", none⟩ exRegistry StoreCache.empty
        (.ok exResponseLong) (.err "x") 12).1).content.all
        (fun c => containsSubstr c.text (truncateChars exLongSnippet 200)) =
        true := by
  set_option maxRecDepth 4096 in decide

/-- C6 amended: for every successful search with at least one result, the
handler's response is exactly one text content item rendering the ranked
results (with each snippet truncated to its first 200 characters in
`fmtSearchResult`); every content item is of type text and no untruncated
structured result list is part of the response. -/
theorem search_response_text_only
    (args : SearchArgs) (reg : RegistryState) (cache : StoreCache)
    (q : SearchQuery) (d : DatasetWithStatus)
    (resp : PythonBridgeResponse) (second : BridgeCallOutcome) (dur : Nat)
    (hval : validateSearchQuery args = .ok q)
    (hget : reg.get q.dataset = some d)
    (hready : d.status = .ready)
    (hres : resp.results ≠ []) :
    (handleSearch args reg cache (.ok resp) second dur).1 =
      ⟨[⟨"text", searchSummary q.query dur resp.results⟩], false⟩
    ∧ ((handleSearch args reg cache (.ok resp) second dur).1).content.all
        (fun c => c.type == "text") = true := by
  have hne : resp.results.isEmpty = false := by
    cases hr : resp.results with
    | nil => exact absurd hr hres
    | cons a as => rfl
  simp only [handleSearch, hval, hget]
  rw [if_pos hready]
  simp only [KnowledgeStore.search, hne, Bool.false_eq_true, if_false]
  constructor <;> trivial

/-- Witness for the amended C6 at a concrete ready dataset and a one-result
bridge response. -/
theorem search_response_text_only_witness :
    validateSearchQuery ⟨"docs-a", "hello", none⟩ =
      .ok ⟨"docs-a", "hello", none⟩
    ∧ exRegistry.get "docs-a" =
        some { toDataset := exDatasetA, status := .ready }
    ∧ ({ toDataset := exDatasetA, status := .ready }
        : DatasetWithStatus).status = .ready
    ∧ exResponseLong.results ≠ []
    ∧ ((handleSearch ⟨"docs-a", "hello", none⟩ exRegistry StoreCache.empty
          (.ok exResponseLong) (.err "x") 12).1 =
        ⟨[⟨"text", searchSummary "hello" 12 exResponseLong.results⟩], false⟩
      ∧ ((handleSearch ⟨"docs-a", "hello", none⟩ exRegistry StoreCache.empty
            (.ok exResponseLong) (.err "x") 12).1).content.all
          (fun c => c.type == "text") = true) :=
  ⟨by decide, by decide, by decide, by decide,
   search_response_text_only ⟨"docs-a", "hello", none⟩ exRegistry
     StoreCache.empty ⟨"docs-a", "hello", none⟩
     { toDataset := exDatasetA, status := .ready } exResponseLong
     (.err "x") 12 (by decide) (by decide) (by decide) (by decide)⟩

end MCPower
